import Mathlib

/-!
Verification of the transcript-to-event bridge
(`src/gateway/server-transcript-events.ts`).

The bridge observes transcript-file update notifications, resolves the file
to a session key through three TTL caches (file → key, file → session id,
id → key), a bounded header read, and a linear store scan, and broadcasts a
"chat" event for every resolved update.

Shallow embedding conventions:
* file contents are `List Char` (one `Char` per byte of the 8 KiB prefix;
  the transcripts of interest are ASCII JSONL);
* `JSON.parse` of a single trimmed line is an abstract parameter
  `parse : String → LineParse`: either the parse throws (`fail`) or it
  yields a value whose `type` field may or may not be the string
  `"session"` and whose `id` field is carried only when it is a string;
* `Date.now()` is a single `Int` per notification (`Env.now`);
* `randomUUID()` is a single `String` per notification (`Env.uuid`) — it is
  called at most once per notification in the source;
* the JS `Map`s are functions `String → Option CacheEntry`;
* the session store (`loadConfig` + `loadCombinedSessionStoreForGateway`)
  is `Env.storeLoad : Option Store`: `none` models the load throwing, and a
  `Store` is the `Object.entries` view — key paired with the entry's
  `sessionId` field when that field is a string (`none` for a null entry or
  a non-string field);
* exceptions escaping `handleUpdate` appear as a `Bool` "threw" flag; the
  notification handler catches it, like the `try`/`catch` in
  `attachGatewayTranscriptChatBridge`.
All embedded functions are total: no exception escapes the embedding, which
mirrors the source's catch-all error handling.
-/

namespace TranscriptBridge

/-- Whitespace as JS `String.prototype.trim` sees it, restricted to the
ASCII whitespace characters that occur in transcript files. -/
def isWs (c : Char) : Bool :=
  c = ' ' || c = '\t' || c = '\n' || c = '\r' || c = '\x0b' || c = '\x0c'

/-- Trim of a character list: drop whitespace from both ends
(JS `line.trim()`). -/
def trimL (l : List Char) : List Char :=
  ((l.dropWhile isWs).reverse.dropWhile isWs).reverse

/-- JS `s.trim()` on strings. -/
def jsTrim (s : String) : String :=
  ⟨trimL s.data⟩

/-- Split a character list at every `'\n'` (the `chunk.split(/\r?\n/)` of
the source; a `'\r'` left at the end of a segment is removed by the
`line.trim()` that every consumer applies first, so the two splits agree
on every trimmed line). -/
def splitLines : List Char → List (List Char)
  | [] => [[]]
  | c :: cs =>
    if c = '\n' then [] :: splitLines cs
    else
      match splitLines cs with
      | [] => [[c]]
      | l :: ls => (c :: l) :: ls

/-- Result of `JSON.parse` on one trimmed line: the parse throws (`fail`),
or it produces a value; `isSession` records whether `parsed?.type` is the
string `"session"`, and `id?` carries `parsed.id` exactly when that field
is a string (the `typeof parsed.id === "string"` test). -/
inductive LineParse where
  | fail
  | ok (isSession : Bool) (id? : Option String)

/-- The scanning loop of `readSessionIdFromTranscript` (source lines
31–48): skip blank lines, stop with `none` on a parse failure, skip
records whose kind is not `"session"` and session records whose trimmed
id is blank, and return the first trimmed non-blank session id. -/
def scanLines (parse : String → LineParse) : List (List Char) → Option String
  | [] => none
  | l :: rest =>
    let t := trimL l
    if t.isEmpty then scanLines parse rest
    else
      match parse ⟨t⟩ with
      | .fail => none
      | .ok isSession id? =>
        if isSession then
          let id := jsTrim (id?.getD "")
          if id ≠ "" then some id else scanLines parse rest
        else scanLines parse rest

/-- `HEADER_READ_BYTES` (source line 17). -/
def HEADER_READ_BYTES : Nat := 8 * 1024

/-- `CACHE_TTL_MS` (source line 18). -/
def CACHE_TTL_MS : Int := 10 * 60000

/-- `readSessionIdFromTranscript` (source lines 20–57). `file` is the
file's content, `none` when opening or reading throws; only the first
`HEADER_READ_BYTES` bytes are read, and a read of zero bytes yields
`none`. -/
def readSessionIdFromTranscript (parse : String → LineParse)
    (file : Option (List Char)) : Option String :=
  match file with
  | none => none
  | some content =>
    let chunk := content.take HEADER_READ_BYTES
    if chunk.isEmpty then none
    else scanLines parse (splitLines chunk)

/-- A cache entry: `{ value, ts }` (source line 15). -/
structure CacheEntry where
  value : String
  ts : Int
deriving DecidableEq

/-- A JS `Map<string, CacheEntry>` as a lookup function. -/
abbrev Cache := String → Option CacheEntry

/-- The empty map. -/
def emptyCache : Cache := fun _ => none

/-- `map.set(key, e)`. -/
def cacheSet (m : Cache) (key : String) (e : CacheEntry) : Cache :=
  fun k => if k = key then some e else m k

/-- `map.delete(key)`. -/
def cacheDelete (m : Cache) (key : String) : Cache :=
  fun k => if k = key then none else m k

/-- `getCached` (source lines 59–69), with `Date.now()` passed in as
`now`; returns the looked-up value together with the map after the lazy
eviction the lookup may perform. -/
def getCached (m : Cache) (key : String) (now : Int) :
    Option String × Cache :=
  match m key with
  | none => (none, m)
  | some e =>
    if now - e.ts > CACHE_TTL_MS then (none, cacheDelete m key)
    else (some e.value, m)

/-- `setCached` (source lines 71–73). -/
def setCached (m : Cache) (key value : String) (now : Int) : Cache :=
  cacheSet m key ⟨value, now⟩

/-- The scan of `resolveSessionKeyForSessionId` (source lines 78–84) over
the `Object.entries` view of the loaded store: trim each entry's
`sessionId` (empty when absent or not a string) and return the first key
whose trimmed candidate is non-empty and equal to the query. -/
def resolveSessionKeyForSessionId : List (String × Option String) → String → Option String
  | [], _ => none
  | (key, sid?) :: rest, sessionId =>
    let entrySessionId := jsTrim (sid?.getD "")
    if entrySessionId ≠ "" ∧ entrySessionId = sessionId then some key
    else resolveSessionKeyForSessionId rest sessionId

/-- One broadcast call: event name, the three payload fields (the payload
is exactly `{ runId, sessionKey, state }`), and the `dropIfSlow` option. -/
structure Broadcast where
  event : String
  runId : String
  sessionKey : String
  state : String
  dropIfSlow : Bool
deriving DecidableEq

/-- Observable effects of handling one notification: the broadcast calls,
the warning-log calls, and how often the header reader
(`readSessionIdFromTranscript`) and the store resolver
(`resolveSessionKeyForSessionId`, including its store load) ran. -/
structure Outputs where
  broadcasts : List Broadcast
  warnings : List String
  readerCalls : Nat
  resolverCalls : Nat
deriving DecidableEq

/-- No observable effect. -/
def noOutputs : Outputs := ⟨[], [], 0, 0⟩

/-- The three module-scope caches of the bridge (source lines 91–93). -/
structure BridgeState where
  sessionKeyByFile : Cache
  sessionIdByFile : Cache
  sessionKeyById : Cache

/-- The bridge's initial state: three empty maps. -/
def initialState : BridgeState := ⟨emptyCache, emptyCache, emptyCache⟩

/-- External world of one notification: the clock, the UUID the single
`randomUUID()` call of this notification would return, the filesystem,
the JSON line parser, and the session store (`none`: loading it throws). -/
structure Env where
  now : Int
  uuid : String
  fs : String → Option (List Char)
  parse : String → LineParse
  storeLoad : Option (List (String × Option String))

/-- JS truthiness of a `string | null`: `null` and `""` are falsy. -/
def truthy : Option String → Option String
  | none => none
  | some s => if s = "" then none else some s

/-- The fast-path broadcast (source lines 98–106). -/
def fastBroadcast (env : Env) (key : String) : Broadcast :=
  ⟨"chat", "transcript-" ++ env.uuid, key, "final", true⟩

/-- The resolved-path broadcast (source lines 130–138). -/
def resolvedBroadcast (env : Env) (sid key : String) : Broadcast :=
  ⟨"chat", "transcript-" ++ sid ++ "-" ++ env.uuid, key, "final", true⟩

/-- The warning of source line 123. -/
def notFoundMsg (sid : String) : String :=
  "transcript update ignored; session key not found (" ++ sid ++ ")"

/-- The warning of source line 149. -/
def failedMsg (file : String) : String :=
  "failed to handle transcript update (" ++ file ++ ")"

/-- Source lines 129–138: populate the file → key fast-path cache and
broadcast the resolved-path event. `rc`/`sc` are the reader/resolver call
counts already incurred. -/
def emitResolved (env : Env) (st : BridgeState) (sessionFile sid sessionKey : String)
    (rc sc : Nat) : BridgeState × Outputs × Bool :=
  ({ st with sessionKeyByFile := setCached st.sessionKeyByFile sessionFile sessionKey env.now },
   ⟨[resolvedBroadcast env sid sessionKey], [], rc, sc⟩, false)

/-- Source lines 119–138: key resolution once a truthy session id is in
hand. The `Bool` is true when the resolver's store load threw; the
`sessionKeyById` field always carries the lazy eviction the line-119
lookup may perform (`getCached` is pure, so consulting its two components
separately is the single call of the source). -/
def handleResolved (env : Env) (st : BridgeState) (sessionFile sid : String)
    (rc : Nat) : BridgeState × Outputs × Bool :=
  match truthy (getCached st.sessionKeyById sid env.now).1 with
  | some sessionKey =>
    emitResolved env { st with sessionKeyById := (getCached st.sessionKeyById sid env.now).2 }
      sessionFile sid sessionKey rc 0
  | none =>
    match env.storeLoad with
    | none =>
      ({ st with sessionKeyById := (getCached st.sessionKeyById sid env.now).2 },
       ⟨[], [], rc, 1⟩, true)
    | some store =>
      match truthy (resolveSessionKeyForSessionId store sid) with
      | none =>
        ({ st with sessionKeyById := (getCached st.sessionKeyById sid env.now).2 },
         ⟨[], [notFoundMsg sid], rc, 1⟩, false)
      | some sessionKey =>
        emitResolved env
          { st with sessionKeyById :=
              setCached (getCached st.sessionKeyById sid env.now).2 sid sessionKey env.now }
          sessionFile sid sessionKey rc 1

/-- `handleUpdate` (source lines 95–139). The fast-path lookup touches
only `sessionKeyByFile` and the id lookup only `sessionIdByFile`, so the
state handed to the later stages is written as one record update. -/
def handleUpdate (env : Env) (st : BridgeState) (sessionFile : String) :
    BridgeState × Outputs × Bool :=
  match truthy (getCached st.sessionKeyByFile sessionFile env.now).1 with
  | some cachedKey =>
    ({ st with sessionKeyByFile := (getCached st.sessionKeyByFile sessionFile env.now).2 },
     ⟨[fastBroadcast env cachedKey], [], 0, 0⟩, false)
  | none =>
    match truthy (getCached st.sessionIdByFile sessionFile env.now).1 with
    | some sid =>
      handleResolved env
        { st with
            sessionKeyByFile := (getCached st.sessionKeyByFile sessionFile env.now).2,
            sessionIdByFile := (getCached st.sessionIdByFile sessionFile env.now).2 }
        sessionFile sid 0
    | none =>
      match truthy (readSessionIdFromTranscript env.parse (env.fs sessionFile)) with
      | none =>
        ({ st with
             sessionKeyByFile := (getCached st.sessionKeyByFile sessionFile env.now).2,
             sessionIdByFile := (getCached st.sessionIdByFile sessionFile env.now).2 },
         ⟨[], [], 1, 0⟩, false)
      | some sid =>
        handleResolved env
          { st with
              sessionKeyByFile := (getCached st.sessionKeyByFile sessionFile env.now).2,
              sessionIdByFile :=
                setCached (getCached st.sessionIdByFile sessionFile env.now).2
                  sessionFile sid env.now }
          sessionFile sid 1

/-- The notification callback installed by
`attachGatewayTranscriptChatBridge` (source lines 141–151): trim the
`sessionFile` field (absent field: `none`), drop falsy paths, and catch
any exception that escapes `handleUpdate`, logging a warning that names
the file. -/
def onNotification (env : Env) (st : BridgeState) (sessionFile? : Option String) :
    BridgeState × Outputs :=
  match sessionFile? with
  | none => (st, noOutputs)
  | some raw =>
    if jsTrim raw = "" then (st, noOutputs)
    else if (handleUpdate env st (jsTrim raw)).2.2 then
      ((handleUpdate env st (jsTrim raw)).1,
       { (handleUpdate env st (jsTrim raw)).2.1 with
           warnings := (handleUpdate env st (jsTrim raw)).2.1.warnings ++
             [failedMsg (jsTrim raw)] })
    else ((handleUpdate env st (jsTrim raw)).1, (handleUpdate env st (jsTrim raw)).2.1)

/-! Concrete instances used to exercise the model on closed inputs. -/

/-- A concrete line parser: the single line `session-line` parses as a
session record with id `sess-42`; anything else fails to parse. -/
def demoParse : String → LineParse := fun s =>
  if s = "session-line" then .ok true (some "sess-42") else .fail

/-- A transcript whose 8 KiB prefix is the single line `session-line`. -/
def demoContent : List Char := "session-line".data

/-- A world in which every file holds `demoContent` and the store maps
`key-alpha` to session id `sess-42`. -/
def envOk : Env :=
  ⟨0, "uuid-1", fun _ => some demoContent, demoParse, some [("key-alpha", some "sess-42")]⟩

/-- Same world with an empty session store: every resolution fails. -/
def envNoStore : Env :=
  ⟨0, "uuid-1", fun _ => some demoContent, demoParse, some []⟩

/-- Same world, but loading the session store throws. -/
def envThrows : Env :=
  ⟨0, "uuid-1", fun _ => some demoContent, demoParse, none⟩

/-- `envOk` at a later clock with a different UUID. -/
def envOk2 : Env :=
  ⟨5, "uuid-2", fun _ => some demoContent, demoParse, some [("key-alpha", some "sess-42")]⟩

/-- No cache in the bridge maps a key to an empty value. -/
def noEmpty (m : Cache) : Prop := ∀ k e, m k = some e → e.value ≠ ""

/-- Whether `JSON.parse` throws on the trimmed line `t`. -/
def lineFails (parse : String → LineParse) (t : List Char) : Bool :=
  match parse ⟨t⟩ with
  | .fail => true
  | .ok _ _ => false

/-- Whether the trimmed line `t` parses as a record of kind `"session"`
carrying a non-blank string identifier — C2's qualifying record. -/
def lineQualifies (parse : String → LineParse) (t : List Char) : Bool :=
  match parse ⟨t⟩ with
  | .fail => false
  | .ok isSession id? => isSession && !(jsTrim (id?.getD "") == "")

/-- The (trimmed) identifier a parsed line carries. -/
def lineId (parse : String → LineParse) (t : List Char) : Option String :=
  match parse ⟨t⟩ with
  | .fail => none
  | .ok _ id? => some (jsTrim (id?.getD ""))

/-- C2's description of the header reader, written from the claim rather
than the source: consult only the first `HEADER_READ_BYTES` bytes, split
them into lines, trim each line and drop the blank ones, then scan top to
bottom for the first line that either fails to parse (the whole read is
not-found) or qualifies (the result is its identifier); not-found when
the file cannot be opened or read, when zero bytes are read, and when no
line stops the scan. -/
def specReadSessionId (parse : String → LineParse) (file : Option (List Char)) :
    Option String :=
  match file with
  | none => none
  | some content =>
    match (((splitLines (content.take HEADER_READ_BYTES)).map trimL).filter
        (fun t => !t.isEmpty)).find?
        (fun t => lineFails parse t || lineQualifies parse t) with
    | none => none
    | some t => if lineFails parse t then none else lineId parse t

/-! Basic lemmas about truthiness and the cache operations. -/

theorem truthy_eq_some {o : Option String} {k : String} (h : truthy o = some k) :
    o = some k ∧ k ≠ "" := by
  cases o with
  | none => simp [truthy] at h
  | some s =>
    by_cases hs : s = ""
    · simp [truthy, hs] at h
    · simp only [truthy, if_neg hs, Option.some.injEq] at h
      subst h
      exact ⟨rfl, hs⟩

theorem getCached_hit {m : Cache} {k v : String} {t now : Int}
    (h : m k = some ⟨v, t⟩) (ht : now - t ≤ CACHE_TTL_MS) :
    getCached m k now = (some v, m) := by
  unfold getCached
  rw [h]
  show (if now - t > CACHE_TTL_MS then _ else _) = _
  rw [if_neg (by omega)]

theorem getCached_expired {m : Cache} {k v : String} {t now : Int}
    (h : m k = some ⟨v, t⟩) (ht : now - t > CACHE_TTL_MS) :
    getCached m k now = (none, cacheDelete m k) := by
  unfold getCached
  rw [h]
  show (if now - t > CACHE_TTL_MS then _ else _) = _
  rw [if_pos ht]

theorem getCached_absent {m : Cache} {k : String} {now : Int} (h : m k = none) :
    getCached m k now = (none, m) := by
  unfold getCached
  rw [h]

/-- A lookup never adds entries: anything present after a `getCached` was
already present with the same entry. -/
theorem getCached_snd_le (m : Cache) (k : String) (now : Int) :
    ∀ k' e, (getCached m k now).2 k' = some e → m k' = some e := by
  intro k' e
  cases hm : m k with
  | none =>
    rw [getCached_absent hm]
    exact id
  | some ent =>
    by_cases hexp : now - ent.ts > CACHE_TTL_MS
    · rw [getCached_expired (show m k = some ⟨ent.value, ent.ts⟩ from hm) hexp]
      intro hh
      have hh' : cacheDelete m k k' = some e := hh
      unfold cacheDelete at hh'
      by_cases hk : k' = k
      · rw [if_pos hk] at hh'
        exact absurd hh' (by simp)
      · rw [if_neg hk] at hh'
        exact hh'
    · rw [getCached_hit (show m k = some ⟨ent.value, ent.ts⟩ from hm) (by omega)]
      exact id

/-- A truthy hit leaves the map untouched. -/
theorem getCached_snd_of_hit {m : Cache} {k v : String} {now : Int}
    (h : truthy (getCached m k now).1 = some v) : (getCached m k now).2 = m := by
  cases hm : m k with
  | none => rw [getCached_absent hm]
  | some ent =>
    by_cases hexp : now - ent.ts > CACHE_TTL_MS
    · rw [getCached_expired (show m k = some ⟨ent.value, ent.ts⟩ from hm) hexp] at h
      exact absurd h (by simp [truthy])
    · rw [getCached_hit (show m k = some ⟨ent.value, ent.ts⟩ from hm) (by omega)]

/-- A non-truthy lookup result is stable: looking the same key up again
in the map the lookup returned is still non-truthy. -/
theorem getCached_miss_stable {m : Cache} {k : String} {now : Int}
    (h : truthy (getCached m k now).1 = none) :
    truthy (getCached (getCached m k now).2 k now).1 = none := by
  cases hm : m k with
  | none =>
    rw [getCached_absent hm]
    show truthy (getCached m k now).1 = none
    exact h
  | some ent =>
    by_cases hexp : now - ent.ts > CACHE_TTL_MS
    · rw [getCached_expired (show m k = some ⟨ent.value, ent.ts⟩ from hm) hexp]
      show truthy (getCached (cacheDelete m k) k now).1 = none
      rw [getCached_absent (show cacheDelete m k k = none by simp [cacheDelete])]
      rfl
    · rw [getCached_hit (show m k = some ⟨ent.value, ent.ts⟩ from hm) (by omega)]
      show truthy (getCached m k now).1 = none
      exact h

/-- Reading back a key set at time `now` hits and yields the value. -/
theorem getCached_setCached (m : Cache) (k v : String) (now : Int) :
    getCached (setCached m k v now) k now = (some v, setCached m k v now) := by
  have h : (setCached m k v now) k = some ⟨v, now⟩ := by simp [setCached, cacheSet]
  exact getCached_hit h (by unfold CACHE_TTL_MS; omega)

theorem noEmpty_empty : noEmpty emptyCache := by
  intro k e h
  simp [emptyCache] at h

theorem noEmpty_getCached_snd {m : Cache} (k : String) (now : Int)
    (h : noEmpty m) : noEmpty (getCached m k now).2 := by
  intro k' e he
  exact h k' e (getCached_snd_le m k now k' e he)

theorem noEmpty_setCached {m : Cache} {k v : String} {now : Int}
    (h : noEmpty m) (hv : v ≠ "") : noEmpty (setCached m k v now) := by
  intro k' e he
  unfold setCached cacheSet at he
  by_cases hk : k' = k
  · rw [if_pos hk] at he
    cases he
    exact hv
  · rw [if_neg hk] at he
    exact h k' e he

/-! Exhaustive case descriptions of the bridge stages. -/

theorem handleResolved_cases (env : Env) (st : BridgeState) (f sid : String) (rc : Nat) :
    (∃ k, truthy (getCached st.sessionKeyById sid env.now).1 = some k ∧
      handleResolved env st f sid rc =
        ({ st with
             sessionKeyByFile := setCached st.sessionKeyByFile f k env.now,
             sessionKeyById := (getCached st.sessionKeyById sid env.now).2 },
         ⟨[resolvedBroadcast env sid k], [], rc, 0⟩, false)) ∨
    (truthy (getCached st.sessionKeyById sid env.now).1 = none ∧
      ((env.storeLoad = none ∧
         handleResolved env st f sid rc =
           ({ st with sessionKeyById := (getCached st.sessionKeyById sid env.now).2 },
            ⟨[], [], rc, 1⟩, true)) ∨
       (∃ store, env.storeLoad = some store ∧
         ((truthy (resolveSessionKeyForSessionId store sid) = none ∧
            handleResolved env st f sid rc =
              ({ st with sessionKeyById := (getCached st.sessionKeyById sid env.now).2 },
               ⟨[], [notFoundMsg sid], rc, 1⟩, false)) ∨
          (∃ k, truthy (resolveSessionKeyForSessionId store sid) = some k ∧
            handleResolved env st f sid rc =
              ({ st with
                   sessionKeyByFile := setCached st.sessionKeyByFile f k env.now,
                   sessionKeyById :=
                     setCached (getCached st.sessionKeyById sid env.now).2 sid k env.now },
               ⟨[resolvedBroadcast env sid k], [], rc, 1⟩, false)))))) := by
  cases htr : truthy (getCached st.sessionKeyById sid env.now).1 with
  | some k =>
    left
    refine ⟨k, rfl, ?_⟩
    unfold handleResolved emitResolved
    rw [htr]
  | none =>
    right
    refine ⟨rfl, ?_⟩
    cases hsl : env.storeLoad with
    | none =>
      left
      refine ⟨rfl, ?_⟩
      unfold handleResolved
      rw [htr, hsl]
    | some store =>
      right
      refine ⟨store, rfl, ?_⟩
      cases hr : truthy (resolveSessionKeyForSessionId store sid) with
      | none =>
        left
        refine ⟨rfl, ?_⟩
        simp only [handleResolved, htr, hsl]
        rw [hr]
      | some k =>
        right
        refine ⟨k, rfl, ?_⟩
        simp only [handleResolved, emitResolved, htr, hsl]
        rw [hr]

theorem handleUpdate_cases (env : Env) (st : BridgeState) (f : String) :
    (∃ k, truthy (getCached st.sessionKeyByFile f env.now).1 = some k ∧
       handleUpdate env st f =
         ({ st with sessionKeyByFile := (getCached st.sessionKeyByFile f env.now).2 },
          ⟨[fastBroadcast env k], [], 0, 0⟩, false)) ∨
    (truthy (getCached st.sessionKeyByFile f env.now).1 = none ∧
      ((truthy (getCached st.sessionIdByFile f env.now).1 = none ∧
         truthy (readSessionIdFromTranscript env.parse (env.fs f)) = none ∧
         handleUpdate env st f =
           ({ st with
                sessionKeyByFile := (getCached st.sessionKeyByFile f env.now).2,
                sessionIdByFile := (getCached st.sessionIdByFile f env.now).2 },
            ⟨[], [], 1, 0⟩, false)) ∨
       (∃ sid,
          truthy (getCached st.sessionIdByFile f env.now).1 = some sid ∧
          handleUpdate env st f =
            handleResolved env
              { st with
                  sessionKeyByFile := (getCached st.sessionKeyByFile f env.now).2,
                  sessionIdByFile := (getCached st.sessionIdByFile f env.now).2 }
              f sid 0) ∨
       (∃ sid,
          truthy (getCached st.sessionIdByFile f env.now).1 = none ∧
          truthy (readSessionIdFromTranscript env.parse (env.fs f)) = some sid ∧
          handleUpdate env st f =
            handleResolved env
              { st with
                  sessionKeyByFile := (getCached st.sessionKeyByFile f env.now).2,
                  sessionIdByFile :=
                    setCached (getCached st.sessionIdByFile f env.now).2 f sid env.now }
              f sid 1))) := by
  cases h1 : truthy (getCached st.sessionKeyByFile f env.now).1 with
  | some k =>
    left
    refine ⟨k, rfl, ?_⟩
    unfold handleUpdate
    rw [h1]
  | none =>
    right
    refine ⟨rfl, ?_⟩
    cases h2 : truthy (getCached st.sessionIdByFile f env.now).1 with
    | some sid =>
      right
      left
      refine ⟨sid, rfl, ?_⟩
      unfold handleUpdate
      rw [h1, h2]
    | none =>
      cases h3 : truthy (readSessionIdFromTranscript env.parse (env.fs f)) with
      | none =>
        left
        refine ⟨rfl, rfl, ?_⟩
        unfold handleUpdate
        rw [h1, h2, h3]
      | some sid =>
        right
        right
        refine ⟨sid, rfl, rfl, ?_⟩
        unfold handleUpdate
        rw [h1, h2, h3]

theorem onNotification_cases (env : Env) (st : BridgeState) (sf? : Option String) :
    ((sf? = none ∨ ∃ raw, sf? = some raw ∧ jsTrim raw = "") ∧
       onNotification env st sf? = (st, noOutputs)) ∨
    (∃ raw, sf? = some raw ∧ jsTrim raw ≠ "" ∧
       (((handleUpdate env st (jsTrim raw)).2.2 = false ∧
          onNotification env st sf? =
            ((handleUpdate env st (jsTrim raw)).1, (handleUpdate env st (jsTrim raw)).2.1)) ∨
        ((handleUpdate env st (jsTrim raw)).2.2 = true ∧
          onNotification env st sf? =
            ((handleUpdate env st (jsTrim raw)).1,
             { (handleUpdate env st (jsTrim raw)).2.1 with
                 warnings := (handleUpdate env st (jsTrim raw)).2.1.warnings ++
                   [failedMsg (jsTrim raw)] })))) := by
  cases sf? with
  | none => exact Or.inl ⟨Or.inl rfl, rfl⟩
  | some raw =>
    by_cases he : jsTrim raw = ""
    · left
      refine ⟨Or.inr ⟨raw, rfl, he⟩, ?_⟩
      simp [onNotification, he]
    · right
      refine ⟨raw, rfl, he, ?_⟩
      cases hb : (handleUpdate env st (jsTrim raw)).2.2 with
      | false =>
        left
        refine ⟨rfl, ?_⟩
        simp [onNotification, he, hb]
      | true =>
        right
        refine ⟨rfl, ?_⟩
        simp [onNotification, he, hb]

/-- The fast path in full: a valid (unexpired) cache entry with a truthy
value short-circuits `handleUpdate` into a single broadcast, with no state
change and no reader or resolver activity. -/
theorem fastPath_eq (env : Env) (st : BridgeState) (f v : String) (t : Int)
    (h : st.sessionKeyByFile f = some ⟨v, t⟩) (hv : v ≠ "")
    (ht : env.now - t ≤ CACHE_TTL_MS) :
    handleUpdate env st f = (st, ⟨[fastBroadcast env v], [], 0, 0⟩, false) := by
  unfold handleUpdate
  rw [getCached_hit h ht]
  simp [truthy, hv]

/-- C1. Idempotent fast path: once a session key for a file sits in the
file → key cache (a resolved key is always non-empty) and its TTL has not
elapsed, `handleUpdate` for that file emits exactly one broadcast carrying
the cached key, performs zero reader calls and zero resolver calls, throws
nothing, and leaves the three caches exactly as they were — so any number
of such invocations behave identically. -/
theorem c1_fast_path_idempotent (env : Env) (st : BridgeState) (f v : String) (t : Int)
    (h : st.sessionKeyByFile f = some ⟨v, t⟩) (hv : v ≠ "")
    (ht : env.now - t ≤ CACHE_TTL_MS) :
    handleUpdate env st f = (st, ⟨[fastBroadcast env v], [], 0, 0⟩, false) :=
  fastPath_eq env st f v t h hv ht

/-- Witness for C1 at a concrete cached state. -/
theorem c1_fast_path_idempotent_witness :
    handleUpdate envOk ⟨cacheSet emptyCache "f" ⟨"key-alpha", 0⟩, emptyCache, emptyCache⟩ "f" =
      (⟨cacheSet emptyCache "f" ⟨"key-alpha", 0⟩, emptyCache, emptyCache⟩,
       ⟨[fastBroadcast envOk "key-alpha"], [], 0, 0⟩, false) :=
  c1_fast_path_idempotent envOk
    ⟨cacheSet emptyCache "f" ⟨"key-alpha", 0⟩, emptyCache, emptyCache⟩
    "f" "key-alpha" 0 (by decide) (by decide) (by decide)

/-- C3 counterexample: the claim says a lookup at any time ≥ T + TTL
treats the entry as absent, but at exactly `T + CACHE_TTL_MS` the source's
`now - entry.ts > CACHE_TTL_MS` test is false and the value is returned. -/
theorem c3_ttl_boundary_counterexample :
    (getCached (cacheSet emptyCache "k" ⟨"v", 0⟩) "k" (0 + CACHE_TTL_MS)).1 = some "v" := by
  decide

/-- C3 amended: an entry inserted at time `t` is treated as absent and
purged by a lookup at any time strictly greater than `t + CACHE_TTL_MS`
(the TTL is 10 minutes for all three caches, which share `getCached`),
while a lookup at any time ≤ `t + CACHE_TTL_MS` — the boundary instant
included — returns the value and leaves the map unchanged. -/
theorem c3_ttl_expiry (m : Cache) (k v : String) (t now : Int)
    (h : m k = some ⟨v, t⟩) :
    (now - t > CACHE_TTL_MS →
       getCached m k now = (none, cacheDelete m k) ∧ cacheDelete m k k = none) ∧
    (now - t ≤ CACHE_TTL_MS → getCached m k now = (some v, m)) := by
  constructor
  · intro hgt
    exact ⟨getCached_expired h hgt, by simp [cacheDelete]⟩
  · intro hle
    exact getCached_hit h hle

/-- Witness for C3 amended, exercising both the strictly-expired lookup
(with its purge) and the boundary-instant lookup. -/
theorem c3_ttl_expiry_witness :
    getCached (cacheSet emptyCache "k" ⟨"v", 0⟩) "k" 600001 =
      (none, cacheDelete (cacheSet emptyCache "k" ⟨"v", 0⟩) "k") ∧
    getCached (cacheSet emptyCache "k" ⟨"v", 0⟩) "k" 600000 =
      (some "v", cacheSet emptyCache "k" ⟨"v", 0⟩) :=
  ⟨((c3_ttl_expiry (cacheSet emptyCache "k" ⟨"v", 0⟩) "k" "v" 0 600001 (by decide)).1
      (by decide)).1,
   (c3_ttl_expiry (cacheSet emptyCache "k" ⟨"v", 0⟩) "k" "v" 0 600000 (by decide)).2
      (by decide)⟩

/-- C7 counterexample: the claim says the resolver trims whitespace from
the query as well, so a query differing from a stored identifier only by
surrounding whitespace would still resolve; but the source trims only the
candidate (`entry.sessionId.trim()`), compares it to the query verbatim,
and the padded query `" s "` fails against the stored identifier `"s"`
even though the two agree after trimming. -/
theorem c7_query_trim_counterexample :
    jsTrim " s " = jsTrim "s" ∧
    resolveSessionKeyForSessionId [("k", some "s")] "s" = some "k" ∧
    resolveSessionKeyForSessionId [("k", some "s")] " s " = none := by
  decide

/-- C7 amended: the resolver scans the store entries linearly and returns
the key of the first entry whose sessionId — trimmed, and empty when
absent or not a string — is non-empty and equal to the query identifier
exactly; only the candidate is trimmed, never the query (so a stored
identifier padded with whitespace still matches an exact query, as the
second conjunct shows on a concrete store, but a padded query matches
nothing). -/
theorem c7_resolver_contract (store : List (String × Option String)) (sid : String) :
    resolveSessionKeyForSessionId store sid =
      Option.map Prod.fst
        (store.find? fun p =>
          decide (jsTrim (p.2.getD "") ≠ "" ∧ jsTrim (p.2.getD "") = sid)) ∧
    resolveSessionKeyForSessionId [("k", some " s ")] "s" = some "k" := by
  refine ⟨?_, by decide⟩
  induction store with
  | nil => rfl
  | cons p rest ih =>
    obtain ⟨key, sid?⟩ := p
    simp only [resolveSessionKeyForSessionId, List.find?]
    by_cases h : jsTrim (sid?.getD "") ≠ "" ∧ jsTrim (sid?.getD "") = sid
    · rw [if_pos h, decide_eq_true h]
      rfl
    · rw [if_neg h, decide_eq_false h]
      exact ih

/-- The source's scanning loop is the claim's first-stopping-line scan
over the trimmed non-blank lines. -/
theorem scanLines_eq_find (parse : String → LineParse) (ls : List (List Char)) :
    scanLines parse ls =
      match ((ls.map trimL).filter (fun t => !t.isEmpty)).find?
          (fun t => lineFails parse t || lineQualifies parse t) with
      | none => none
      | some t => if lineFails parse t then none else lineId parse t := by
  induction ls with
  | nil => rfl
  | cons l rest ih =>
    by_cases ht : (trimL l).isEmpty
    · simp only [scanLines, List.map_cons, List.filter_cons, ht]
      simpa using ih
    · simp only [scanLines, List.map_cons, List.filter_cons, ht]
      cases hp : parse ⟨trimL l⟩ with
      | fail =>
        have hf : lineFails parse (trimL l) = true := by simp [lineFails, hp]
        simp [List.find?, hf]
      | ok isSession id? =>
        have hf : lineFails parse (trimL l) = false := by simp [lineFails, hp]
        cases isSession with
        | false =>
          have hq : lineQualifies parse (trimL l) = false := by simp [lineQualifies, hp]
          simp only [List.find?, hf, hq, Bool.false_or, Bool.not_true,
            Bool.not_eq_true, if_false]
          simpa using ih
        | true =>
          by_cases hid : jsTrim (id?.getD "") = ""
          · have hq : lineQualifies parse (trimL l) = false := by
              simp [lineQualifies, hp, hid]
            simp only [List.find?, hf, hq, Bool.false_or]
            simp only [hid]
            simpa using ih
          · have hq : lineQualifies parse (trimL l) = true := by
              simp [lineQualifies, hp, hid]
            have hi : lineId parse (trimL l) = some (jsTrim (id?.getD "")) := by
              simp [lineId, hp]
            simp [List.find?, hf, hq, hi, hid]

/-- C2. Header Reader contract: `readSessionIdFromTranscript` coincides
with the claim's description `specReadSessionId` on every file and every
parser — it consults only the first 8192 bytes, splits them into lines,
skips blank lines, ignores records of other kinds and session records
with a blank identifier, returns the first qualifying identifier, and
reports not-found on a parse failure before a qualifying record, an
unopenable file, a zero-byte read, or a prefix with no qualifying record;
both sides are total functions, so no exception escapes. -/
theorem c2_reader_contract (parse : String → LineParse) (file : Option (List Char)) :
    readSessionIdFromTranscript parse file = specReadSessionId parse file := by
  cases file with
  | none => rfl
  | some content =>
    by_cases hc : (content.take HEADER_READ_BYTES).isEmpty
    · have hnil : content.take HEADER_READ_BYTES = [] := by
        simpa [List.isEmpty_iff] using hc
      simp [readSessionIdFromTranscript, specReadSessionId, hnil,
        splitLines, trimL, List.find?]
    · simp only [readSessionIdFromTranscript, specReadSessionId, hc, if_false,
        Bool.not_eq_true]
      exact scanLines_eq_find parse (splitLines (content.take HEADER_READ_BYTES))

/-- When a notification's handling ends without an emission, the
file → key and id → key caches gain no entries (at most, expired entries
were lazily purged). -/
theorem handleUpdate_no_broadcast_state (env : Env) (st : BridgeState) (f : String)
    (hb : (handleUpdate env st f).2.1.broadcasts = []) :
    (∀ k e, (handleUpdate env st f).1.sessionKeyByFile k = some e →
       st.sessionKeyByFile k = some e) ∧
    (∀ k e, (handleUpdate env st f).1.sessionKeyById k = some e →
       st.sessionKeyById k = some e) := by
  rcases handleUpdate_cases env st f with
    ⟨k, hk, heq⟩ | ⟨h1, ⟨h2, h3, heq⟩ | ⟨sid, h2, heq⟩ | ⟨sid, h2, h3, heq⟩⟩
  · rw [heq] at hb
    exact absurd hb (by simp)
  · rw [heq]
    exact ⟨fun k e he => getCached_snd_le _ _ _ k e he, fun k e he => he⟩
  · rw [heq] at hb ⊢
    rcases handleResolved_cases env
        { st with
            sessionKeyByFile := (getCached st.sessionKeyByFile f env.now).2,
            sessionIdByFile := (getCached st.sessionIdByFile f env.now).2 }
        f sid 0 with
      ⟨k, hk, heq2⟩ | ⟨hk, ⟨hsl, heq2⟩ | ⟨store, hsl, ⟨hr, heq2⟩ | ⟨k, hr, heq2⟩⟩⟩
    · rw [heq2] at hb
      exact absurd hb (by simp)
    · rw [heq2]
      exact ⟨fun k e he => getCached_snd_le _ _ _ k e he,
             fun k e he => getCached_snd_le _ _ _ k e he⟩
    · rw [heq2]
      exact ⟨fun k e he => getCached_snd_le _ _ _ k e he,
             fun k e he => getCached_snd_le _ _ _ k e he⟩
    · rw [heq2] at hb
      exact absurd hb (by simp)
  · rw [heq] at hb ⊢
    rcases handleResolved_cases env
        { st with
            sessionKeyByFile := (getCached st.sessionKeyByFile f env.now).2,
            sessionIdByFile :=
              setCached (getCached st.sessionIdByFile f env.now).2 f sid env.now }
        f sid 1 with
      ⟨k, hk, heq2⟩ | ⟨hk, ⟨hsl, heq2⟩ | ⟨store, hsl, ⟨hr, heq2⟩ | ⟨k, hr, heq2⟩⟩⟩
    · rw [heq2] at hb
      exact absurd hb (by simp)
    · rw [heq2]
      exact ⟨fun k e he => getCached_snd_le _ _ _ k e he,
             fun k e he => getCached_snd_le _ _ _ k e he⟩
    · rw [heq2]
      exact ⟨fun k e he => getCached_snd_le _ _ _ k e he,
             fun k e he => getCached_snd_le _ _ _ k e he⟩
    · rw [heq2] at hb
      exact absurd hb (by simp)

/-- After a warned (resolver-failure) invocation, an immediate retry for
the same file must re-invoke the resolver: the failure left no usable
id → key entry, while the file → id cache still supplies the identifier. -/
theorem handleUpdate_warned_refail (env : Env) (st : BridgeState) (f : String)
    (hw : (handleUpdate env st f).2.1.warnings ≠ [])
    (hthr : (handleUpdate env st f).2.2 = false) :
    (handleUpdate env (handleUpdate env st f).1 f).2.1.resolverCalls = 1 := by
  rcases handleUpdate_cases env st f with
    ⟨k, hk, heq⟩ | ⟨h1, ⟨h2, h3, heq⟩ | ⟨sid, h2, heq⟩ | ⟨sid, h2, h3, heq⟩⟩
  · rw [heq] at hw
    simp at hw
  · rw [heq] at hw
    simp at hw
  · rcases handleResolved_cases env
        { st with
            sessionKeyByFile := (getCached st.sessionKeyByFile f env.now).2,
            sessionIdByFile := (getCached st.sessionIdByFile f env.now).2 }
        f sid 0 with
      ⟨k, hk, heq2⟩ | ⟨hk, ⟨hsl, heq2⟩ | ⟨store, hsl, ⟨hr, heq2⟩ | ⟨k, hr, heq2⟩⟩⟩
    · rw [heq, heq2] at hw
      simp at hw
    · rw [heq, heq2] at hthr
      simp at hthr
    · have hk' : truthy (getCached st.sessionKeyById sid env.now).1 = none := hk
      have f1 : truthy (getCached ((getCached st.sessionKeyByFile f env.now).2) f env.now).1
          = none := getCached_miss_stable h1
      have hid2 : (getCached st.sessionIdByFile f env.now).2 = st.sessionIdByFile :=
        getCached_snd_of_hit h2
      have f3 : truthy (getCached ((getCached st.sessionKeyById sid env.now).2) sid env.now).1
          = none := getCached_miss_stable hk'
      rw [heq, heq2]
      simp only [handleUpdate, handleResolved, f1, hid2, h2, f3, hsl, hr]
    · rw [heq, heq2] at hw
      simp at hw
  · rcases handleResolved_cases env
        { st with
            sessionKeyByFile := (getCached st.sessionKeyByFile f env.now).2,
            sessionIdByFile :=
              setCached (getCached st.sessionIdByFile f env.now).2 f sid env.now }
        f sid 1 with
      ⟨k, hk, heq2⟩ | ⟨hk, ⟨hsl, heq2⟩ | ⟨store, hsl, ⟨hr, heq2⟩ | ⟨k, hr, heq2⟩⟩⟩
    · rw [heq, heq2] at hw
      simp at hw
    · rw [heq, heq2] at hthr
      simp at hthr
    · have hk' : truthy (getCached st.sessionKeyById sid env.now).1 = none := hk
      have hsid : sid ≠ "" := (truthy_eq_some h3).2
      have f1 : truthy (getCached ((getCached st.sessionKeyByFile f env.now).2) f env.now).1
          = none := getCached_miss_stable h1
      have f2 : truthy (getCached
            (setCached (getCached st.sessionIdByFile f env.now).2 f sid env.now) f env.now).1
          = some sid := by
        rw [getCached_setCached]
        simp [truthy, hsid]
      have f3 : truthy (getCached ((getCached st.sessionKeyById sid env.now).2) sid env.now).1
          = none := getCached_miss_stable hk'
      rw [heq, heq2]
      simp only [handleUpdate, handleResolved, f1, f2, f3, hsl, hr]
    · rw [heq, heq2] at hw
      simp at hw

/-- C4 counterexample: a notification can end without an emission (the
store is empty, so resolution fails and a warning is logged) while the
file → session identifier cache has gained an entry: the run read
`sess-42` from the header, cached it at source line 116, and only then
failed resolution — so not all three caches stay untouched on failure. -/
theorem c4_failure_caches_id_counterexample :
    (handleUpdate envNoStore initialState "f").2.1.broadcasts = [] ∧
    (handleUpdate envNoStore initialState "f").2.1.warnings = [notFoundMsg "sess-42"] ∧
    initialState.sessionIdByFile "f" = none ∧
    (handleUpdate envNoStore initialState "f").1.sessionIdByFile "f" =
      some ⟨"sess-42", 0⟩ := by
  decide

/-- C4 amended: on an invocation that ends without an emission, the
file → key and id → key caches gain or change no entry — in particular no
entry keyed by the failing identifier is cached, and an immediate retry
must re-invoke the resolver (third conjunct); however the file →
identifier cache may gain the freshly read identifier, so the retry skips
the header read rather than re-attempting resolution fully from scratch. -/
theorem c4_no_key_caching_on_failure (env : Env) (st : BridgeState) (f : String)
    (hb : (handleUpdate env st f).2.1.broadcasts = []) :
    (∀ k e, (handleUpdate env st f).1.sessionKeyByFile k = some e →
       st.sessionKeyByFile k = some e) ∧
    (∀ k e, (handleUpdate env st f).1.sessionKeyById k = some e →
       st.sessionKeyById k = some e) ∧
    ((handleUpdate env st f).2.1.warnings ≠ [] → (handleUpdate env st f).2.2 = false →
       (handleUpdate env (handleUpdate env st f).1 f).2.1.resolverCalls = 1) :=
  ⟨(handleUpdate_no_broadcast_state env st f hb).1,
   (handleUpdate_no_broadcast_state env st f hb).2,
   fun hw hthr => handleUpdate_warned_refail env st f hw hthr⟩

/-- Witness for C4 amended: after the concrete failed resolution, the
immediate retry performs exactly one resolver call. -/
theorem c4_no_key_caching_on_failure_witness :
    (handleUpdate envNoStore (handleUpdate envNoStore initialState "f").1 "f").2.1.resolverCalls
      = 1 :=
  (c4_no_key_caching_on_failure envNoStore initialState "f" (by decide)).2.2
    (by decide) (by decide)

/-- The five possible observable outcomes of one `handleUpdate` call:
fast-path emission, silent not-found, resolved emission, resolver-failure
warning, and store-load throw. -/
theorem handleUpdate_out (env : Env) (st : BridgeState) (f : String) :
    (∃ k, truthy (getCached st.sessionKeyByFile f env.now).1 = some k ∧ k ≠ "" ∧
       (handleUpdate env st f).2 = (⟨[fastBroadcast env k], [], 0, 0⟩, false)) ∨
    (truthy (getCached st.sessionKeyByFile f env.now).1 = none ∧
      ((handleUpdate env st f).2 = (⟨[], [], 1, 0⟩, false) ∨
       (∃ sid k rc sc, sid ≠ "" ∧ k ≠ "" ∧
          (handleUpdate env st f).2 = (⟨[resolvedBroadcast env sid k], [], rc, sc⟩, false)) ∨
       (∃ sid rc, sid ≠ "" ∧
          (handleUpdate env st f).2 = (⟨[], [notFoundMsg sid], rc, 1⟩, false)) ∨
       (∃ rc, (handleUpdate env st f).2 = (⟨[], [], rc, 1⟩, true)))) := by
  rcases handleUpdate_cases env st f with
    ⟨k, hk, heq⟩ | ⟨h1, ⟨h2, h3, heq⟩ | ⟨sid, h2, heq⟩ | ⟨sid, h2, h3, heq⟩⟩
  · exact Or.inl ⟨k, hk, (truthy_eq_some hk).2, by rw [heq]⟩
  · exact Or.inr ⟨h1, Or.inl (by rw [heq])⟩
  · refine Or.inr ⟨h1, ?_⟩
    have hsid : sid ≠ "" := (truthy_eq_some h2).2
    rcases handleResolved_cases env
        { st with
            sessionKeyByFile := (getCached st.sessionKeyByFile f env.now).2,
            sessionIdByFile := (getCached st.sessionIdByFile f env.now).2 }
        f sid 0 with
      ⟨k, hk, heq2⟩ | ⟨hk, ⟨hsl, heq2⟩ | ⟨store, hsl, ⟨hr, heq2⟩ | ⟨k, hr, heq2⟩⟩⟩
    · exact Or.inr (Or.inl ⟨sid, k, 0, 0, hsid, (truthy_eq_some hk).2, by rw [heq, heq2]⟩)
    · exact Or.inr (Or.inr (Or.inr ⟨0, by rw [heq, heq2]⟩))
    · exact Or.inr (Or.inr (Or.inl ⟨sid, 0, hsid, by rw [heq, heq2]⟩))
    · exact Or.inr (Or.inl ⟨sid, k, 0, 1, hsid, (truthy_eq_some hr).2, by rw [heq, heq2]⟩)
  · refine Or.inr ⟨h1, ?_⟩
    have hsid : sid ≠ "" := (truthy_eq_some h3).2
    rcases handleResolved_cases env
        { st with
            sessionKeyByFile := (getCached st.sessionKeyByFile f env.now).2,
            sessionIdByFile :=
              setCached (getCached st.sessionIdByFile f env.now).2 f sid env.now }
        f sid 1 with
      ⟨k, hk, heq2⟩ | ⟨hk, ⟨hsl, heq2⟩ | ⟨store, hsl, ⟨hr, heq2⟩ | ⟨k, hr, heq2⟩⟩⟩
    · exact Or.inr (Or.inl ⟨sid, k, 1, 0, hsid, (truthy_eq_some hk).2, by rw [heq, heq2]⟩)
    · exact Or.inr (Or.inr (Or.inr ⟨1, by rw [heq, heq2]⟩))
    · exact Or.inr (Or.inr (Or.inl ⟨sid, 1, hsid, by rw [heq, heq2]⟩))
    · exact Or.inr (Or.inl ⟨sid, k, 1, 1, hsid, (truthy_eq_some hr).2, by rw [heq, heq2]⟩)

/-- C5. Warning iff: handling a notification logs a warning exactly when
the resolver ran and no broadcast was emitted — that is, when (a) a
session identifier was obtained but could not be resolved to a key, or
(b) the resolver's store load threw (the unexpected-exception source of
the model), which the notification boundary catches so that nothing
reaches the watcher. Every logged warning is either the not-found message
carrying the unresolved identifier or the boundary message naming the
trimmed offending file; cache-hit emissions, unreadable or empty
prefixes, malformed leading records and successful resolutions log
nothing. -/
theorem c5_warning_iff (env : Env) (st : BridgeState) (sf? : Option String) :
    ((onNotification env st sf?).2.warnings ≠ [] ↔
       (onNotification env st sf?).2.resolverCalls = 1 ∧
       (onNotification env st sf?).2.broadcasts = []) ∧
    (∀ w ∈ (onNotification env st sf?).2.warnings,
       (∃ sid, w = notFoundMsg sid) ∨
       (∃ raw, sf? = some raw ∧ w = failedMsg (jsTrim raw))) := by
  rcases onNotification_cases env st sf? with ⟨hin, heq⟩ | ⟨raw, hraw, hne, hcase⟩
  · rw [heq]
    exact ⟨by simp [noOutputs], by intro w hw; simp [noOutputs] at hw⟩
  · rcases handleUpdate_out env st (jsTrim raw) with
      ⟨k, hk, hkne, hout⟩ | ⟨h1, hout1 | ⟨sid, k, rc, sc, hsid, hkne, hout⟩ |
        ⟨sid, rc, hsid, hout⟩ | ⟨rc, hout⟩⟩
    · rcases hcase with ⟨hthr, heq⟩ | ⟨hthr, heq⟩
      · rw [heq]
        have h21 : (handleUpdate env st (jsTrim raw)).2.1 =
            ⟨[fastBroadcast env k], [], 0, 0⟩ := by rw [hout]
        rw [h21]
        exact ⟨by simp, by intro w hw; simp at hw⟩
      · rw [hout] at hthr
        simp at hthr
    · rcases hcase with ⟨hthr, heq⟩ | ⟨hthr, heq⟩
      · rw [heq]
        have h21 : (handleUpdate env st (jsTrim raw)).2.1 = ⟨[], [], 1, 0⟩ := by
          rw [hout1]
        rw [h21]
        exact ⟨by simp, by intro w hw; simp at hw⟩
      · rw [hout1] at hthr
        simp at hthr
    · rcases hcase with ⟨hthr, heq⟩ | ⟨hthr, heq⟩
      · rw [heq]
        have h21 : (handleUpdate env st (jsTrim raw)).2.1 =
            ⟨[resolvedBroadcast env sid k], [], rc, sc⟩ := by rw [hout]
        rw [h21]
        exact ⟨by simp, by intro w hw; simp at hw⟩
      · rw [hout] at hthr
        simp at hthr
    · rcases hcase with ⟨hthr, heq⟩ | ⟨hthr, heq⟩
      · rw [heq]
        have h21 : (handleUpdate env st (jsTrim raw)).2.1 =
            ⟨[], [notFoundMsg sid], rc, 1⟩ := by rw [hout]
        rw [h21]
        refine ⟨by simp, ?_⟩
        intro w hw
        simp at hw
        subst hw
        exact Or.inl ⟨sid, rfl⟩
      · rw [hout] at hthr
        simp at hthr
    · rcases hcase with ⟨hthr, heq⟩ | ⟨hthr, heq⟩
      · rw [hout] at hthr
        simp at hthr
      · rw [heq]
        have h21 : (handleUpdate env st (jsTrim raw)).2.1 = ⟨[], [], rc, 1⟩ := by
          rw [hout]
        rw [h21]
        refine ⟨by simp, ?_⟩
        intro w hw
        simp at hw
        subst hw
        exact Or.inr ⟨raw, hraw, rfl⟩

/-- Witness for C5: the concrete store-less run warns, and its outputs
satisfy the characterization. -/
theorem c5_warning_iff_witness :
    (onNotification envNoStore initialState (some "f")).2.warnings ≠ [] :=
  (c5_warning_iff envNoStore initialState (some "f")).1.mpr (by decide)

/-- Shape of every broadcast a notification can emit. -/
theorem onNotification_broadcast_shape (env : Env) (st : BridgeState) (sf? : Option String)
    (b : Broadcast) (hb : b ∈ (onNotification env st sf?).2.broadcasts) :
    b.event = "chat" ∧ b.dropIfSlow = true ∧ b.state = "final" ∧
    ∃ raw, sf? = some raw ∧
      ((∃ k, truthy (getCached st.sessionKeyByFile (jsTrim raw) env.now).1 = some k ∧
          b.sessionKey = k ∧ b.runId = "transcript-" ++ env.uuid) ∨
       (truthy (getCached st.sessionKeyByFile (jsTrim raw) env.now).1 = none ∧
          ∃ sid, sid ≠ "" ∧ b.sessionKey ≠ "" ∧
            b.runId = "transcript-" ++ sid ++ "-" ++ env.uuid)) := by
  rcases onNotification_cases env st sf? with ⟨hin, heq⟩ | ⟨raw, hraw, hne, hcase⟩
  · rw [heq] at hb
    simp [noOutputs] at hb
  · have hb' : b ∈ (handleUpdate env st (jsTrim raw)).2.1.broadcasts := by
      rcases hcase with ⟨_, heq⟩ | ⟨_, heq⟩ <;> (rw [heq] at hb; exact hb)
    rcases handleUpdate_out env st (jsTrim raw) with
      ⟨k, hk, hkne, hout⟩ | ⟨h1, hout1 | ⟨sid, k, rc, sc, hsid, hkne, hout⟩ |
        ⟨sid, rc, hsid, hout⟩ | ⟨rc, hout⟩⟩
    · have h21 : (handleUpdate env st (jsTrim raw)).2.1 =
          ⟨[fastBroadcast env k], [], 0, 0⟩ := by rw [hout]
      rw [h21] at hb'
      simp at hb'
      subst hb'
      exact ⟨rfl, rfl, rfl, raw, hraw, Or.inl ⟨k, hk, rfl, rfl⟩⟩
    · have h21 : (handleUpdate env st (jsTrim raw)).2.1 = ⟨[], [], 1, 0⟩ := by rw [hout1]
      rw [h21] at hb'
      simp at hb'
    · have h21 : (handleUpdate env st (jsTrim raw)).2.1 =
          ⟨[resolvedBroadcast env sid k], [], rc, sc⟩ := by rw [hout]
      rw [h21] at hb'
      simp at hb'
      subst hb'
      exact ⟨rfl, rfl, rfl, raw, hraw, Or.inr ⟨h1, sid, hsid, hkne, rfl⟩⟩
    · have h21 : (handleUpdate env st (jsTrim raw)).2.1 =
          ⟨[], [notFoundMsg sid], rc, 1⟩ := by rw [hout]
      rw [h21] at hb'
      simp at hb'
    · have h21 : (handleUpdate env st (jsTrim raw)).2.1 = ⟨[], [], rc, 1⟩ := by rw [hout]
      rw [h21] at hb'
      simp at hb'

/-- C6. Broadcast payload shape: every broadcast the bridge emits is the
event `"chat"` with `dropIfSlow` set, a payload of exactly the fields
`runId`, `sessionKey`, `state` with `state = "final"`, and a `runId` of
the form `transcript-<uuid>` when the file → key cache hit (fast path)
and `transcript-<sessionIdentifier>-<uuid>` otherwise (resolved path). -/
theorem c6_broadcast_shape (env : Env) (st : BridgeState) (sf? : Option String)
    (b : Broadcast) (hb : b ∈ (onNotification env st sf?).2.broadcasts) :
    b.event = "chat" ∧ b.dropIfSlow = true ∧ b.state = "final" ∧
    ∃ raw, sf? = some raw ∧
      ((∃ k, truthy (getCached st.sessionKeyByFile (jsTrim raw) env.now).1 = some k ∧
          b.sessionKey = k ∧ b.runId = "transcript-" ++ env.uuid) ∨
       (truthy (getCached st.sessionKeyByFile (jsTrim raw) env.now).1 = none ∧
          ∃ sid, sid ≠ "" ∧ b.runId = "transcript-" ++ sid ++ "-" ++ env.uuid)) := by
  obtain ⟨he, hd, hs, raw, hraw, hsh⟩ := onNotification_broadcast_shape env st sf? b hb
  refine ⟨he, hd, hs, raw, hraw, ?_⟩
  rcases hsh with h | ⟨hn, sid, hsid, -, hrid⟩
  · exact Or.inl h
  · exact Or.inr ⟨hn, sid, hsid, hrid⟩

/-- Witness for C6 at the concrete resolved-path emission. -/
theorem c6_broadcast_shape_witness :
    (resolvedBroadcast envOk "sess-42" "key-alpha").event = "chat" :=
  (c6_broadcast_shape envOk initialState (some "f")
    (resolvedBroadcast envOk "sess-42" "key-alpha") (by decide)).1

/-- Strings with equal character data are equal. -/
theorem strData_inj {a b : String} (h : a.data = b.data) : a = b := by
  cases a
  cases b
  exact congrArg String.mk h

/-- Two run identifiers built from distinct UUIDs of equal length differ,
whatever mix of fast-path and resolved-path shapes the two have. -/
theorem runId_shapes_ne {u₁ u₂ : String} (hne : u₁ ≠ u₂) (hlen : u₁.length = u₂.length)
    {r₁ r₂ : String}
    (h₁ : r₁ = "transcript-" ++ u₁ ∨ ∃ s, r₁ = "transcript-" ++ s ++ "-" ++ u₁)
    (h₂ : r₂ = "transcript-" ++ u₂ ∨ ∃ s, r₂ = "transcript-" ++ s ++ "-" ++ u₂) :
    r₁ ≠ r₂ := by
  have hdash : ("-" : String).length = 1 := rfl
  intro hr
  rcases h₁ with h₁ | ⟨s₁, h₁⟩ <;> rcases h₂ with h₂ | ⟨s₂, h₂⟩
  · rw [h₁, h₂] at hr
    have hd := congrArg String.data hr
    simp only [String.data_append] at hd
    exact hne (strData_inj (List.append_cancel_left hd))
  · rw [h₁, h₂] at hr
    have hl := congrArg String.length hr
    simp only [String.length_append] at hl
    omega
  · rw [h₁, h₂] at hr
    have hl := congrArg String.length hr
    simp only [String.length_append] at hl
    omega
  · rw [h₁, h₂] at hr
    have hd := congrArg String.data hr
    simp only [String.data_append] at hd
    have hlen' : u₁.data.length = u₂.data.length := hlen
    exact hne (strData_inj (List.append_inj_right' hd hlen'))

/-- A single notification emits at most one broadcast (and so makes at
most one `randomUUID` call). -/
theorem onNotification_broadcasts_le_one (env : Env) (st : BridgeState)
    (sf? : Option String) :
    (onNotification env st sf?).2.broadcasts.length ≤ 1 := by
  rcases onNotification_cases env st sf? with ⟨hin, heq⟩ | ⟨raw, hraw, hne, hcase⟩
  · rw [heq]
    simp [noOutputs]
  · have h21 : (onNotification env st sf?).2.broadcasts =
        (handleUpdate env st (jsTrim raw)).2.1.broadcasts := by
      rcases hcase with ⟨-, heq⟩ | ⟨-, heq⟩ <;> rw [heq]
    rw [h21]
    rcases handleUpdate_out env st (jsTrim raw) with
      ⟨k, -, -, hout⟩ | ⟨-, hout | ⟨sid, k, rc, sc, -, -, hout⟩ |
        ⟨sid, rc, -, hout⟩ | ⟨rc, hout⟩⟩
    · rw [show (handleUpdate env st (jsTrim raw)).2.1 =
          ⟨[fastBroadcast env k], [], 0, 0⟩ from by rw [hout]]
      simp
    · rw [show (handleUpdate env st (jsTrim raw)).2.1 = ⟨[], [], 1, 0⟩ from by rw [hout]]
      simp
    · rw [show (handleUpdate env st (jsTrim raw)).2.1 =
          ⟨[resolvedBroadcast env sid k], [], rc, sc⟩ from by rw [hout]]
      simp
    · rw [show (handleUpdate env st (jsTrim raw)).2.1 =
          ⟨[], [notFoundMsg sid], rc, 1⟩ from by rw [hout]]
      simp
    · rw [show (handleUpdate env st (jsTrim raw)).2.1 = ⟨[], [], rc, 1⟩ from by rw [hout]]
      simp

/-- C8. Distinct run identifiers per emission: with the UUID generator
never repeating (and UUIDs having the fixed 36-character format, here:
equal lengths), any broadcast of one notification and any broadcast of
another carry different `runId`s, while a single notification emits at
most one broadcast and makes at most one `randomUUID` call; and for a
file whose key `v` is already cached and unexpired at both instants, two
successive updates are two fast-path emissions from an unchanged state
whose payloads share the sessionKey `v` but differ in `runId`. -/
theorem c8_distinct_run_ids (env₁ env₂ : Env) (st₁ st₂ : BridgeState)
    (sf₁ sf₂ : Option String) (b₁ b₂ : Broadcast)
    (huuid : env₁.uuid ≠ env₂.uuid) (hlen : env₁.uuid.length = env₂.uuid.length)
    (h₁ : b₁ ∈ (onNotification env₁ st₁ sf₁).2.broadcasts)
    (h₂ : b₂ ∈ (onNotification env₂ st₂ sf₂).2.broadcasts) :
    b₁.runId ≠ b₂.runId ∧
    (onNotification env₁ st₁ sf₁).2.broadcasts.length ≤ 1 ∧
    (∀ f v t, st₁.sessionKeyByFile f = some ⟨v, t⟩ → v ≠ "" →
       env₁.now - t ≤ CACHE_TTL_MS → env₂.now - t ≤ CACHE_TTL_MS →
       handleUpdate env₁ st₁ f = (st₁, ⟨[fastBroadcast env₁ v], [], 0, 0⟩, false) ∧
       handleUpdate env₂ (handleUpdate env₁ st₁ f).1 f =
         ((handleUpdate env₁ st₁ f).1, ⟨[fastBroadcast env₂ v], [], 0, 0⟩, false) ∧
       (fastBroadcast env₁ v).sessionKey = (fastBroadcast env₂ v).sessionKey ∧
       (fastBroadcast env₁ v).runId ≠ (fastBroadcast env₂ v).runId) := by
  refine ⟨?_, onNotification_broadcasts_le_one env₁ st₁ sf₁, ?_⟩
  · obtain ⟨-, -, -, raw₁, -, hsh₁⟩ := onNotification_broadcast_shape env₁ st₁ sf₁ b₁ h₁
    obtain ⟨-, -, -, raw₂, -, hsh₂⟩ := onNotification_broadcast_shape env₂ st₂ sf₂ b₂ h₂
    have r₁ : b₁.runId = "transcript-" ++ env₁.uuid ∨
        ∃ s, b₁.runId = "transcript-" ++ s ++ "-" ++ env₁.uuid := by
      rcases hsh₁ with ⟨k, -, -, hk⟩ | ⟨-, sid, -, -, hsid⟩
      · exact Or.inl hk
      · exact Or.inr ⟨sid, hsid⟩
    have r₂ : b₂.runId = "transcript-" ++ env₂.uuid ∨
        ∃ s, b₂.runId = "transcript-" ++ s ++ "-" ++ env₂.uuid := by
      rcases hsh₂ with ⟨k, -, -, hk⟩ | ⟨-, sid, -, -, hsid⟩
      · exact Or.inl hk
      · exact Or.inr ⟨sid, hsid⟩
    exact runId_shapes_ne huuid hlen r₁ r₂
  · intro f v t hc hv ht₁ ht₂
    have e₁ := fastPath_eq env₁ st₁ f v t hc hv ht₁
    refine ⟨e₁, ?_, rfl, ?_⟩
    · rw [e₁]
      exact fastPath_eq env₂ st₁ f v t hc hv ht₂
    · exact runId_shapes_ne huuid hlen (Or.inl rfl) (Or.inl rfl)

/-- Witness for C8: two fast-path emissions for the same cached file
under different UUIDs have different run identifiers. -/
theorem c8_distinct_run_ids_witness :
    (fastBroadcast envOk "key-alpha").runId ≠ (fastBroadcast envOk2 "key-alpha").runId :=
  (c8_distinct_run_ids envOk envOk2
    ⟨cacheSet emptyCache "f" ⟨"key-alpha", 0⟩, emptyCache, emptyCache⟩
    ⟨cacheSet emptyCache "f" ⟨"key-alpha", 0⟩, emptyCache, emptyCache⟩
    (some "f") (some "f")
    (fastBroadcast envOk "key-alpha") (fastBroadcast envOk2 "key-alpha")
    (by decide) (by decide) (by decide) (by decide)).1

theorem dropWhile_dropWhile (p : Char → Bool) (l : List Char) :
    (l.dropWhile p).dropWhile p = l.dropWhile p := by
  induction l with
  | nil => rfl
  | cons c cs ih =>
    by_cases h : p c
    · rw [List.dropWhile_cons_of_pos h]
      exact ih
    · rw [List.dropWhile_cons_of_neg h, List.dropWhile_cons_of_neg h]

theorem dropWhile_eq_self_head {p : Char → Bool} {l : List Char}
    (h : l.dropWhile p = l) : ∀ c cs, l = c :: cs → p c = false := by
  intro c cs hl
  subst hl
  by_cases hc : p c
  · rw [List.dropWhile_cons_of_pos hc] at h
    have h1 := congrArg List.length h
    have h2 : (cs.dropWhile p).length ≤ cs.length := (List.dropWhile_sublist p).length_le
    simp at h1
    omega
  · simpa using hc

theorem dropWhile_eq_self_of_prefix {p : Char → Bool} {l₁ l₂ : List Char}
    (h : l₂.dropWhile p = l₂) (hp : l₁ <+: l₂) : l₁.dropWhile p = l₁ := by
  cases l₁ with
  | nil => rfl
  | cons c cs =>
    obtain ⟨t, ht⟩ := hp
    have hc : p c = false := by
      apply dropWhile_eq_self_head h c (cs ++ t)
      rw [← ht]
      rfl
    rw [List.dropWhile_cons_of_neg (by simp [hc])]

/-- JS trimming is idempotent (at the character-list level). -/
theorem trimL_idem (l : List Char) : trimL (trimL l) = trimL l := by
  have hm : (l.dropWhile isWs).dropWhile isWs = l.dropWhile isWs :=
    dropWhile_dropWhile isWs l
  have hsuf : (l.dropWhile isWs).reverse.dropWhile isWs <:+ (l.dropWhile isWs).reverse :=
    List.dropWhile_suffix isWs
  have hpre : ((l.dropWhile isWs).reverse.dropWhile isWs).reverse <+: l.dropWhile isWs := by
    have h2 := List.reverse_prefix.mpr hsuf
    rwa [List.reverse_reverse] at h2
  have hdr : (((l.dropWhile isWs).reverse.dropWhile isWs).reverse).dropWhile isWs
      = ((l.dropWhile isWs).reverse.dropWhile isWs).reverse :=
    dropWhile_eq_self_of_prefix hm hpre
  unfold trimL
  rw [hdr, List.reverse_reverse, dropWhile_dropWhile]

/-- JS `trim` is idempotent. -/
theorem jsTrim_idem (s : String) : jsTrim (jsTrim s) = jsTrim s := by
  unfold jsTrim
  exact congrArg String.mk (trimL_idem s.data)

/-- C9. Blank file path dropped at the boundary: a notification whose
sessionFile field is absent or trims to the empty string is discarded
with no state change and no output of any kind (no cache lookup's effect,
no file read, no store scan, no broadcast, no warning); a non-empty path
is processed exactly as its trimmed form, and the trimmed path is what is
handed to `handleUpdate` (and hence used as the cache key). -/
theorem c9_blank_path_dropped (env : Env) (st : BridgeState) :
    onNotification env st none = (st, noOutputs) ∧
    (∀ raw, jsTrim raw = "" → onNotification env st (some raw) = (st, noOutputs)) ∧
    (∀ raw, onNotification env st (some raw) = onNotification env st (some (jsTrim raw))) ∧
    (∀ raw, jsTrim raw ≠ "" →
       onNotification env st (some raw) =
         (if (handleUpdate env st (jsTrim raw)).2.2 then
            ((handleUpdate env st (jsTrim raw)).1,
             { (handleUpdate env st (jsTrim raw)).2.1 with
                 warnings := (handleUpdate env st (jsTrim raw)).2.1.warnings ++
                   [failedMsg (jsTrim raw)] })
          else
            ((handleUpdate env st (jsTrim raw)).1,
             (handleUpdate env st (jsTrim raw)).2.1))) := by
  refine ⟨rfl, ?_, ?_, ?_⟩
  · intro raw h
    simp [onNotification, h]
  · intro raw
    simp only [onNotification, jsTrim_idem]
  · intro raw h
    simp only [onNotification]
    rw [if_neg h]

/-- Witness for C9: a whitespace-only path is dropped outright. -/
theorem c9_blank_path_dropped_witness :
    onNotification envOk initialState (some "   ") = (initialState, noOutputs) :=
  (c9_blank_path_dropped envOk initialState).2.1 "   " (by decide)

/-- The bridge never writes an empty value into any of the three caches:
every `setCached` it performs stores a truthiness-checked string. -/
theorem handleUpdate_preserves_noEmpty (env : Env) (st : BridgeState) (f : String)
    (h1 : noEmpty st.sessionKeyByFile) (h2 : noEmpty st.sessionIdByFile)
    (h3 : noEmpty st.sessionKeyById) :
    noEmpty (handleUpdate env st f).1.sessionKeyByFile ∧
    noEmpty (handleUpdate env st f).1.sessionIdByFile ∧
    noEmpty (handleUpdate env st f).1.sessionKeyById := by
  rcases handleUpdate_cases env st f with
    ⟨k, hk, heq⟩ | ⟨hfast, ⟨hid, hread, heq⟩ | ⟨sid, hid, heq⟩ | ⟨sid, hid, hread, heq⟩⟩
  · rw [heq]
    exact ⟨noEmpty_getCached_snd _ _ h1, h2, h3⟩
  · rw [heq]
    exact ⟨noEmpty_getCached_snd _ _ h1, noEmpty_getCached_snd _ _ h2, h3⟩
  · rcases handleResolved_cases env
        { st with
            sessionKeyByFile := (getCached st.sessionKeyByFile f env.now).2,
            sessionIdByFile := (getCached st.sessionIdByFile f env.now).2 }
        f sid 0 with
      ⟨k, hk, heq2⟩ | ⟨hk, ⟨hsl, heq2⟩ | ⟨store, hsl, ⟨hr, heq2⟩ | ⟨k, hr, heq2⟩⟩⟩
    · rw [heq, heq2]
      exact ⟨noEmpty_setCached (noEmpty_getCached_snd _ _ h1) (truthy_eq_some hk).2,
             noEmpty_getCached_snd _ _ h2, noEmpty_getCached_snd _ _ h3⟩
    · rw [heq, heq2]
      exact ⟨noEmpty_getCached_snd _ _ h1, noEmpty_getCached_snd _ _ h2,
             noEmpty_getCached_snd _ _ h3⟩
    · rw [heq, heq2]
      exact ⟨noEmpty_getCached_snd _ _ h1, noEmpty_getCached_snd _ _ h2,
             noEmpty_getCached_snd _ _ h3⟩
    · rw [heq, heq2]
      exact ⟨noEmpty_setCached (noEmpty_getCached_snd _ _ h1) (truthy_eq_some hr).2,
             noEmpty_getCached_snd _ _ h2,
             noEmpty_setCached (noEmpty_getCached_snd _ _ h3) (truthy_eq_some hr).2⟩
  · have hsid : sid ≠ "" := (truthy_eq_some hread).2
    rcases handleResolved_cases env
        { st with
            sessionKeyByFile := (getCached st.sessionKeyByFile f env.now).2,
            sessionIdByFile :=
              setCached (getCached st.sessionIdByFile f env.now).2 f sid env.now }
        f sid 1 with
      ⟨k, hk, heq2⟩ | ⟨hk, ⟨hsl, heq2⟩ | ⟨store, hsl, ⟨hr, heq2⟩ | ⟨k, hr, heq2⟩⟩⟩
    · rw [heq, heq2]
      exact ⟨noEmpty_setCached (noEmpty_getCached_snd _ _ h1) (truthy_eq_some hk).2,
             noEmpty_setCached (noEmpty_getCached_snd _ _ h2) hsid,
             noEmpty_getCached_snd _ _ h3⟩
    · rw [heq, heq2]
      exact ⟨noEmpty_getCached_snd _ _ h1,
             noEmpty_setCached (noEmpty_getCached_snd _ _ h2) hsid,
             noEmpty_getCached_snd _ _ h3⟩
    · rw [heq, heq2]
      exact ⟨noEmpty_getCached_snd _ _ h1,
             noEmpty_setCached (noEmpty_getCached_snd _ _ h2) hsid,
             noEmpty_getCached_snd _ _ h3⟩
    · rw [heq, heq2]
      exact ⟨noEmpty_setCached (noEmpty_getCached_snd _ _ h1) (truthy_eq_some hr).2,
             noEmpty_setCached (noEmpty_getCached_snd _ _ h2) hsid,
             noEmpty_setCached (noEmpty_getCached_snd _ _ h3) (truthy_eq_some hr).2⟩

/-- C10. Emitted session keys and identifiers are non-empty: every
broadcast carries a non-empty `sessionKey`, every resolved-path `runId`
embeds a non-empty session identifier (an empty cached value is a fast-
path miss, an empty reader result is not-found, an empty resolver result
is a warned failure), and — starting from caches free of empty values,
as the bridge's are — the handling of any notification keeps all three
caches free of empty values, because only truthiness-checked strings are
ever written. -/
theorem c10_nonempty_values (env : Env) (st : BridgeState) (sf? : Option String)
    (h1 : noEmpty st.sessionKeyByFile) (h2 : noEmpty st.sessionIdByFile)
    (h3 : noEmpty st.sessionKeyById) :
    (∀ b ∈ (onNotification env st sf?).2.broadcasts,
       b.sessionKey ≠ "" ∧
       (b.runId = "transcript-" ++ env.uuid ∨
        ∃ sid, sid ≠ "" ∧ b.runId = "transcript-" ++ sid ++ "-" ++ env.uuid)) ∧
    noEmpty (onNotification env st sf?).1.sessionKeyByFile ∧
    noEmpty (onNotification env st sf?).1.sessionIdByFile ∧
    noEmpty (onNotification env st sf?).1.sessionKeyById := by
  constructor
  · intro b hb
    obtain ⟨-, -, -, raw, -, hsh⟩ := onNotification_broadcast_shape env st sf? b hb
    rcases hsh with ⟨k, hk, hbk, hrid⟩ | ⟨-, sid, hsid, hbk, hrid⟩
    · exact ⟨hbk ▸ (truthy_eq_some hk).2, Or.inl hrid⟩
    · exact ⟨hbk, Or.inr ⟨sid, hsid, hrid⟩⟩
  · rcases onNotification_cases env st sf? with ⟨hin, heq⟩ | ⟨raw, hraw, hne, hcase⟩
    · rw [heq]
      exact ⟨h1, h2, h3⟩
    · have hst : (onNotification env st sf?).1 = (handleUpdate env st (jsTrim raw)).1 := by
        rcases hcase with ⟨-, heq⟩ | ⟨-, heq⟩ <;> rw [heq]
      rw [hst]
      exact handleUpdate_preserves_noEmpty env st (jsTrim raw) h1 h2 h3

/-- Witness for C10 from the empty initial caches on the concrete
resolving world. -/
theorem c10_nonempty_values_witness :
    noEmpty (onNotification envOk initialState (some "f")).1.sessionKeyById :=
  (c10_nonempty_values envOk initialState (some "f")
    noEmpty_empty noEmpty_empty noEmpty_empty).2.2.2

end TranscriptBridge
